import Mathlib

/-!
Verification of the per-room replicated state machine and the per-room Raft
consensus of the distributed watch-together system, as a shallow embedding of
the TypeScript source.

Conventions of the embedding:
* Machine numbers (`number` in TypeScript) that hold terms, indices, lengths
  and millisecond timestamps are modelled as `Nat`; numbers that may be
  negative in the source (playlist positions, which clients send as `-1`)
  are modelled as `Int`.
* Every call of `Date.now()` in the source becomes an explicit `now : Nat`
  argument: the local wall clock of the node executing the code.
* JavaScript `Map` objects become association lists with the same lookup
  (`get ... ?? default`) and overwrite (`set`) behaviour.
* Side effects that do not touch the state under verification (logging,
  timer bookkeeping, websocket sends) are dropped; messages that the code
  sends are returned explicitly.
-/

set_option maxRecDepth 40000

namespace WatchTogether

/-! ## Room state (src/src/types/room.ts) -/

/-- Participant in a room (interface `Participant`). -/
structure Participant where
  userId : String
  joinedAt : Nat
  isCreator : Bool
  deriving DecidableEq, Repr

/-- Video in the playlist (interface `PlaylistVideo`); `title?` is optional. -/
structure PlaylistVideo where
  videoId : String
  title : Option String := none
  addedBy : String
  addedAt : Nat
  deriving DecidableEq, Repr

/-- Chat message (interface `ChatMessage`). -/
structure ChatMessage where
  id : String
  userId : String
  messageText : String
  timestamp : Nat
  deriving DecidableEq, Repr

/-- Playback state (interface `PlaybackState`); `positionSeconds` is only
ever stored and copied by the backend, so its numeric type is modelled as
`Int`. -/
structure PlaybackState where
  isPlaying : Bool
  currentVideoId : Option String
  positionSeconds : Int
  lastUpdated : Nat
  deriving DecidableEq, Repr

/-- Complete room state (interface `RoomState`). -/
structure RoomState where
  roomCode : String
  createdAt : Nat
  createdBy : String
  playlist : List PlaylistVideo
  playback : PlaybackState
  participants : List Participant
  chatLog : List ChatMessage
  deriving DecidableEq, Repr

/-- Create initial room state (`createRoomState` in src/src/types/room.ts);
each `Date.now()` is the creating node's clock `now`. -/
def createRoomState (roomCode creatorId : String) (now : Nat) : RoomState :=
  { roomCode := roomCode
    createdAt := now
    createdBy := creatorId
    playlist := []
    playback :=
      { isPlaying := false
        currentVideoId := none
        positionSeconds := 0
        lastUpdated := now }
    participants := [{ userId := creatorId, joinedAt := now, isCreator := true }]
    chatLog := [] }

/-! ## Operations (src/shared/types/messages.ts)

The source stores an operation as `{type, payload, timestamp}` where the
payload is cast per `type`; the well-typed combinations are modelled as one
inductive. -/

/-- Tag and payload of a room operation (enum `RoomMessageType` together with
the corresponding payload interface). -/
inductive RoomOperationPayload where
  | roomCreate (roomCode userId : String)
  | roomJoin (roomCode userId : String)
  | roomLeave (roomCode userId : String)
  | playbackPlay (roomCode videoId : String) (positionSeconds : Int)
  | playbackPause (roomCode : String) (positionSeconds : Int)
  | playbackSeek (roomCode : String) (newPositionSeconds : Int)
  | playlistAdd (roomCode videoId userId : String) (newVideoPosition : Int)
  | playlistRemove (roomCode videoId : String) (removedVideoPosition : Int)
  | chatMessage (roomCode userId messageText : String) (timestamp : Nat)
  deriving DecidableEq, Repr

/-- Room operation as carried in Raft log entries (interface
`RoomOperation`: `{type, payload, timestamp}`). -/
structure RoomOperation where
  payload : RoomOperationPayload
  timestamp : Nat
  deriving DecidableEq, Repr

/-! ## The room state machine (src/src/room/room-state.ts) -/

/-- Method `applyRoomJoin`: appends the user unless already present;
`joinedAt` is `Date.now()` of the applying node. -/
def applyRoomJoin (s : RoomState) (userId : String) (now : Nat) : RoomState :=
  if (s.participants.find? (fun p => p.userId = userId)).isSome then s
  else
    { s with
      participants :=
        s.participants ++ [{ userId := userId, joinedAt := now, isCreator := false }] }

/-- Method `applyRoomLeave`: removes the user by filtering. -/
def applyRoomLeave (s : RoomState) (userId : String) : RoomState :=
  { s with participants := s.participants.filter (fun p => p.userId ≠ userId) }

/-- Method `applyPlaybackPlay`: replaces the whole playback record;
`lastUpdated` is `Date.now()` of the applying node. -/
def applyPlaybackPlay (s : RoomState) (videoId : String) (positionSeconds : Int)
    (now : Nat) : RoomState :=
  { s with
    playback :=
      { isPlaying := true
        currentVideoId := some videoId
        positionSeconds := positionSeconds
        lastUpdated := now } }

/-- Method `applyPlaybackPause`: keeps `currentVideoId`, updates the rest;
`lastUpdated` is `Date.now()` of the applying node. -/
def applyPlaybackPause (s : RoomState) (positionSeconds : Int) (now : Nat) : RoomState :=
  { s with
    playback :=
      { s.playback with
        isPlaying := false
        positionSeconds := positionSeconds
        lastUpdated := now } }

/-- Method `applyPlaybackSeek`; `lastUpdated` is `Date.now()` of the applying
node. -/
def applyPlaybackSeek (s : RoomState) (newPositionSeconds : Int) (now : Nat) : RoomState :=
  { s with
    playback :=
      { s.playback with
        positionSeconds := newPositionSeconds
        lastUpdated := now } }

/-- Index at which `Array.prototype.splice(start, 0, item)` inserts in
JavaScript: a negative `start` counts from the end of the array and is
clamped at 0, a non-negative `start` is clamped at the length. -/
def jsSpliceIndex (len : Nat) (start : Int) : Nat :=
  if start < 0 then ((len : Int) + start).toNat else min start.toNat len

/-- Insertion as performed by `this.state.playlist.splice(pos, 0, video)`. -/
def jsSpliceInsert (l : List PlaylistVideo) (start : Int) (v : PlaylistVideo) :
    List PlaylistVideo :=
  l.take (jsSpliceIndex l.length start) ++ v :: l.drop (jsSpliceIndex l.length start)

/-- Method `applyPlaylistAdd`: builds `{videoId, addedBy: "unknown",
addedAt: Date.now()}` and inserts it — `push` when the requested position is
at least the playlist length, `splice(position, 0, video)` otherwise. -/
def applyPlaylistAdd (s : RoomState) (videoId : String) (newVideoPosition : Int)
    (now : Nat) : RoomState :=
  let video : PlaylistVideo :=
    { videoId := videoId, addedBy := "unknown", addedAt := now }
  if newVideoPosition ≥ (s.playlist.length : Int) then
    { s with playlist := s.playlist ++ [video] }
  else
    { s with playlist := jsSpliceInsert s.playlist newVideoPosition video }

/-- Method `applyPlaylistRemove`: filters out every entry whose `videoId`
matches; the payload's `removedVideoPosition` is not consulted. -/
def applyPlaylistRemove (s : RoomState) (videoId : String) : RoomState :=
  { s with playlist := s.playlist.filter (fun v => v.videoId ≠ videoId) }

/-- Method `applyChatMessage`: appends the message built from the payload
(`id = timestamp + "-" + userId`), then keeps only the last 1000 entries. -/
def applyChatMessage (s : RoomState) (userId messageText : String)
    (timestamp : Nat) : RoomState :=
  let message : ChatMessage :=
    { id := toString timestamp ++ "-" ++ userId
      userId := userId
      messageText := messageText
      timestamp := timestamp }
  let chatLog := s.chatLog ++ [message]
  if chatLog.length > 1000 then
    { s with chatLog := chatLog.drop (chatLog.length - 1000) }
  else
    { s with chatLog := chatLog }

/-- Method `RoomStateManager.applyOperation`: dispatch on the operation type.
`now` is the applying node's `Date.now()` at apply time; a `ROOM_CREATE`
operation is a no-op because the room was created in the constructor. -/
def applyOperation (s : RoomState) (op : RoomOperation) (now : Nat) : RoomState :=
  match op.payload with
  | .roomCreate _ _ => s
  | .roomJoin _ userId => applyRoomJoin s userId now
  | .roomLeave _ userId => applyRoomLeave s userId
  | .playbackPlay _ videoId positionSeconds => applyPlaybackPlay s videoId positionSeconds now
  | .playbackPause _ positionSeconds => applyPlaybackPause s positionSeconds now
  | .playbackSeek _ newPositionSeconds => applyPlaybackSeek s newPositionSeconds now
  | .playlistAdd _ videoId _ newVideoPosition => applyPlaylistAdd s videoId newVideoPosition now
  | .playlistRemove _ videoId _ => applyPlaylistRemove s videoId
  | .chatMessage _ userId messageText timestamp => applyChatMessage s userId messageText timestamp

/-! ## Raft data (src/src/types/node.ts and src/shared/types/messages.ts) -/

/-- Node role in Raft (enum `NodeRole`). -/
inductive NodeRole where
  | follower
  | candidate
  | leader
  deriving DecidableEq, Repr

/-- Raft log entry (interface `LogEntry`). -/
structure LogEntry where
  term : Nat
  index : Nat
  operation : RoomOperation
  deriving DecidableEq, Repr

/-- Payload of a RequestVote RPC (interface `RequestVotePayload`). -/
structure RequestVotePayload where
  term : Nat
  candidateId : String
  lastLogIndex : Nat
  lastLogTerm : Nat
  deriving DecidableEq, Repr

/-- Response of a RequestVote RPC (interface `RequestVoteResponse`). -/
structure RequestVoteResponse where
  term : Nat
  voteGranted : Bool
  deriving DecidableEq, Repr

/-- Payload of an AppendEntries RPC (interface `AppendEntriesPayload`). -/
structure AppendEntriesPayload where
  term : Nat
  leaderId : String
  prevLogIndex : Nat
  prevLogTerm : Nat
  entries : List LogEntry
  leaderCommitIndex : Nat
  deriving DecidableEq, Repr

/-- Response of an AppendEntries RPC (interface `AppendEntriesResponse`). -/
structure AppendEntriesResponse where
  term : Nat
  success : Bool
  matchIndex : Nat
  deriving DecidableEq, Repr

/-- Lookup in a JavaScript `Map<string, number>` (`m.get(k)`). -/
def mapGet (m : List (String × Nat)) (k : String) : Option Nat :=
  (m.find? (fun e => e.1 = k)).map (fun e => e.2)

/-- Overwrite in a JavaScript `Map<string, number>` (`m.set(k, v)`). -/
def mapSet (m : List (String × Nat)) (k : String) (v : Nat) : List (String × Nat) :=
  if (m.find? (fun e => e.1 = k)).isSome then
    m.map (fun e => if e.1 = k then (k, v) else e)
  else
    m ++ [(k, v)]

/-- Raft state for one room on one node (interface `RaftRoomState`). -/
structure RaftRoomState where
  currentTerm : Nat
  votedFor : Option String
  log : List LogEntry
  commitIndex : Nat
  lastApplied : Nat
  nextIndex : List (String × Nat)
  matchIndex : List (String × Nat)
  role : NodeRole
  leaderId : Option String
  deriving DecidableEq, Repr

/-- Initial Raft state (`createRaftRoomState`). -/
def createRaftRoomState : RaftRoomState :=
  { currentTerm := 0
    votedFor := none
    log := []
    commitIndex := 0
    lastApplied := 0
    nextIndex := []
    matchIndex := []
    role := .follower
    leaderId := none }

/-! ## RaftConsensus methods (src/consensus/raft.ts)

Each private method of class `RaftConsensus` becomes a pure function on
`RaftRoomState`; timer bookkeeping and logging are dropped; RPC sends are
modelled in the cluster transition system further below. -/

/-- Method `becomeFollower`: role, term and vote are overwritten (note that
`votedFor` is cleared even when the term does not change). -/
def becomeFollower (s : RaftRoomState) (term : Nat) : RaftRoomState :=
  { s with role := .follower, currentTerm := term, votedFor := none }

/-- Method `isLogUpToDate`: last-term comparison, then last-index
comparison. -/
def isLogUpToDate (s : RaftRoomState) (lastLogIndex lastLogTerm : Nat) : Bool :=
  let ourLastIndex := s.log.length
  let ourLastTerm := match s.log.getLast? with
    | some e => e.term
    | none => 0
  if lastLogTerm ≠ ourLastTerm then
    decide (lastLogTerm > ourLastTerm)
  else
    decide (lastLogIndex ≥ ourLastIndex)

/-- Method `handleRequestVote`, returning the updated state and the
response. -/
def handleRequestVote (s : RaftRoomState) (p : RequestVotePayload) :
    RaftRoomState × RequestVoteResponse :=
  if p.term < s.currentTerm then
    (s, { term := s.currentTerm, voteGranted := false })
  else
    let s1 := if p.term > s.currentTerm then becomeFollower s p.term else s
    let canVote :=
      (s1.votedFor = none ∨ s1.votedFor = some p.candidateId) ∧
        isLogUpToDate s1 p.lastLogIndex p.lastLogTerm = true
    if canVote then
      ({ s1 with votedFor := some p.candidateId },
        { term := s1.currentTerm, voteGranted := true })
    else
      (s1, { term := s1.currentTerm, voteGranted := false })

/-- Entry-append loop of `handleAppendEntries`: for each entry, push when its
index is beyond the log, otherwise replace in place when the term at that
index differs (`this.state.log[entry.index - 1]?.term !== entry.term`). -/
def appendEntriesLoop (log : List LogEntry) (entries : List LogEntry) : List LogEntry :=
  entries.foldl
    (fun log entry =>
      if entry.index > log.length then
        log ++ [entry]
      else if ((log.get? (entry.index - 1)).map LogEntry.term) ≠ some entry.term then
        log.set (entry.index - 1) entry
      else
        log)
    log

/-- Loop of `applyCommittedEntries`: advance `lastApplied` to `commitIndex`
(each step hands `log[lastApplied - 1].operation` to the apply callback;
the callback's effect on the room state is modelled separately). -/
def applyCommittedEntries (s : RaftRoomState) : RaftRoomState :=
  if s.lastApplied < s.commitIndex then { s with lastApplied := s.commitIndex } else s

/-- Append-and-commit phase of `handleAppendEntries` (the code after the
consistency check has fallen through): merge the entries, then raise
`commitIndex` to `min(leaderCommitIndex, log.length)` when the leader's
commit is ahead, apply, and answer `success=true` with
`matchIndex = this.state.log.length`. -/
def appendPhase (s3 : RaftRoomState) (p : AppendEntriesPayload) :
    RaftRoomState × AppendEntriesResponse :=
  let s5 := { s3 with log := appendEntriesLoop s3.log p.entries }
  let s6 :=
    if p.leaderCommitIndex > s5.commitIndex then
      applyCommittedEntries { s5 with commitIndex := min p.leaderCommitIndex s5.log.length }
    else s5
  (s6, { term := s6.currentTerm, success := true, matchIndex := s6.log.length })

/-- Preamble of `handleAppendEntries` once the stale-term rejection has been
passed: adopt a higher term, record the leader, and step down to follower if
currently candidate or leader. -/
def aePreamble (s : RaftRoomState) (p : AppendEntriesPayload) : RaftRoomState :=
  let s1 := if p.term > s.currentTerm then becomeFollower s p.term else s
  let s2 := { s1 with leaderId := some p.leaderId }
  if s2.role ≠ .follower then becomeFollower s2 p.term else s2

/-- Method `handleAppendEntries`, returning the updated state and the
response. The conflict test mirrors
`if (prevEntry && prevEntry.term !== prevLogTerm)`. -/
def handleAppendEntries (s : RaftRoomState) (p : AppendEntriesPayload) :
    RaftRoomState × AppendEntriesResponse :=
  if p.term < s.currentTerm then
    (s, { term := s.currentTerm, success := false, matchIndex := 0 })
  else
    let s3 := aePreamble s p
    -- consistency check
    if p.prevLogIndex > 0 then
      if p.prevLogIndex > s3.log.length then
        (s3, { term := s3.currentTerm, success := false, matchIndex := s3.log.length })
      else if (s3.log.get? (p.prevLogIndex - 1)).any (fun e => e.term != p.prevLogTerm) then
        let s4 := { s3 with log := s3.log.take (p.prevLogIndex - 1) }
        (s4, { term := s4.currentTerm, success := false, matchIndex := s4.log.length })
      else
        appendPhase s3 p
    else
      appendPhase s3 p

/-- Method `submitOperation`: on a leader, append
`{term: currentTerm, index: log.length + 1, operation}` to the log
(replication is a separate messaging step); on a non-leader, no change. -/
def submitOperation (s : RaftRoomState) (op : RoomOperation) : RaftRoomState × Bool :=
  if s.role = .leader then
    ({ s with
        log := s.log ++
          [{ term := s.currentTerm, index := s.log.length + 1, operation := op }] },
      true)
  else
    (s, false)

/-- Method `becomeCandidate`: increment term, vote for self, clear the known
leader. -/
def becomeCandidate (s : RaftRoomState) (nodeId : String) : RaftRoomState :=
  { s with
    role := .candidate
    currentTerm := s.currentTerm + 1
    votedFor := some nodeId
    leaderId := none }

/-- Method `becomeLeader`: initialise `nextIndex` to `log.length + 1` and
`matchIndex` to 0 for every peer. -/
def becomeLeader (s : RaftRoomState) (nodeId : String) (peerNodeIds : List String) :
    RaftRoomState :=
  { s with
    role := .leader
    leaderId := some nodeId
    nextIndex := peerNodeIds.map (fun p => (p, s.log.length + 1))
    matchIndex := peerNodeIds.map (fun p => (p, 0)) }

/-- Majority threshold `Math.floor((peers + 1) / 2) + 1` used both as
`votesNeeded` in `startElection` and as `majority` in `updateCommitIndex`. -/
def votesNeeded (peerCount : Nat) : Nat :=
  (peerCount + 1) / 2 + 1

/-- Loop body of `updateCommitIndex`: scan `n` from `log.length` down to
`commitIndex + 1`; at the first `n` replicated on a majority whose entry has
the current term, set `commitIndex := n`, apply, and stop. -/
def updateCommitIndexFrom (s : RaftRoomState) (peerNodeIds : List String) :
    Nat → RaftRoomState
  | 0 => s
  | n + 1 =>
    if n + 1 > s.commitIndex then
      let replicationCount :=
        1 + (peerNodeIds.filter (fun p => ((mapGet s.matchIndex p).getD 0) ≥ n + 1)).length
      if replicationCount ≥ votesNeeded peerNodeIds.length ∧
          ((s.log.get? n).map LogEntry.term) = some s.currentTerm then
        applyCommittedEntries { s with commitIndex := n + 1 }
      else
        updateCommitIndexFrom s peerNodeIds n
    else
      s

/-- Method `updateCommitIndex`. -/
def updateCommitIndex (s : RaftRoomState) (peerNodeIds : List String) : RaftRoomState :=
  updateCommitIndexFrom s peerNodeIds s.log.length

/-! ## Cluster transition system

One `RaftConsensus` instance per node for a single room, communicating
through an asynchronous network. Every transition is an atomic section of
the source between `await` points (the Bun runtime executes each such
section without interleaving):

* `timeout n` — the election timer fires (`resetElectionTimer` callback):
  a non-leader becomes candidate and `startElection` sends RequestVote to
  every peer, with the local counter `votesReceived` starting at 1;
* delivery of a RequestVote / AppendEntries message — the receiver's
  handler runs and its response message enters the network;
* delivery of a response — the sender's continuation after `await
  this.onSendRpc(...)` runs (vote counting in `startElection`,
  `nextIndex`/`matchIndex` bookkeeping in `replicateToFollower`);
* `submit n op` — `submitOperation` appends to the leader log and
  `replicateToFollowers` sends one AppendEntries per peer;
* `updateCommitAct n` — the `updateCommitIndex()` call that
  `replicateToFollowers` performs after its replication round settles;
* `heartbeat n` — the heartbeat interval fires (`sendHeartbeats`);
* `dropMsg k` — the network loses a message (the source treats an RPC
  timeout or connection error as a caught failure and moves on).

A vote response is routed back to the `startElection` closure that sent the
request; the closure is identified by the term the candidate had when it
started that election (`electionTerm`), because `becomeCandidate` increments
the term for each new election. The source does NOT compare that term with
`currentTerm` when counting votes. -/

/-- Per-node state: the Raft state plus the `votesReceived` counters of the
`startElection` closures, keyed by the term at which the election started. -/
structure NodeState where
  raft : RaftRoomState
  counters : List (Nat × Nat)
  deriving DecidableEq, Repr

/-- Message in flight between nodes. -/
inductive NetMsg where
  | requestVote (src dst : String) (p : RequestVotePayload)
  | voteReply (src dst : String) (electionTerm : Nat) (resp : RequestVoteResponse)
  | appendEntries (src dst : String) (p : AppendEntriesPayload)
  | appendReply (src dst : String) (sentNextIndex : Nat) (resp : AppendEntriesResponse)
  deriving DecidableEq, Repr

/-- Global state: the per-node states and the messages in flight. -/
structure Cluster where
  nodes : List (String × NodeState)
  network : List NetMsg
  deriving DecidableEq, Repr

/-- Peer ids of a node: every configured node except itself
(`rpcClient.getPeerNodeIds()`). -/
def Cluster.peersOf (c : Cluster) (n : String) : List String :=
  (c.nodes.map Prod.fst).filter (fun x => x ≠ n)

/-- Look up a node's state. -/
def Cluster.node? (c : Cluster) (n : String) : Option NodeState :=
  (c.nodes.find? (fun e => e.1 = n)).map Prod.snd

/-- Replace a node's state. -/
def Cluster.setNode (c : Cluster) (n : String) (st : NodeState) : Cluster :=
  { c with nodes := c.nodes.map (fun e => if e.1 = n then (n, st) else e) }

/-- Append messages to the network. -/
def Cluster.send (c : Cluster) (ms : List NetMsg) : Cluster :=
  { c with network := c.network ++ ms }

/-- The AppendEntries message `replicateToFollower(peerId)` builds from the
sender's current state. -/
def replicationMsg (src dst : String) (s : RaftRoomState) : NetMsg :=
  let nextIndex := (mapGet s.nextIndex dst).getD 1
  let prevLogIndex := nextIndex - 1
  let prevLogTerm :=
    if prevLogIndex > 0 then (((s.log.get? (prevLogIndex - 1))).map LogEntry.term).getD 0
    else 0
  .appendEntries src dst
    { term := s.currentTerm
      leaderId := src
      prevLogIndex := prevLogIndex
      prevLogTerm := prevLogTerm
      entries := s.log.drop (nextIndex - 1)
      leaderCommitIndex := s.commitIndex }

/-- The RequestVote message `startElection` sends to one peer. -/
def requestVoteMsg (src dst : String) (s : RaftRoomState) : NetMsg :=
  .requestVote src dst
    { term := s.currentTerm
      candidateId := src
      lastLogIndex := s.log.length
      lastLogTerm := match s.log.getLast? with
        | some e => e.term
        | none => 0 }

/-- Election timer fires at node `n` (`becomeCandidate` + `startElection`
sends; a current leader ignores the timer). -/
def stepTimeout (c : Cluster) (n : String) : Cluster :=
  match c.node? n with
  | none => c
  | some st =>
    if st.raft.role = .leader then c
    else
      let raft1 := becomeCandidate st.raft n
      let st1 : NodeState :=
        { raft := raft1, counters := st.counters ++ [(raft1.currentTerm, 1)] }
      ((c.setNode n st1).send ((c.peersOf n).map (fun p => requestVoteMsg n p raft1)))

/-- A vote response reaches the candidate's `startElection` closure: step
down on a higher term, otherwise count the grant if still in candidate role,
and on reaching `votesNeeded` become leader (which immediately sends a round
of heartbeats via `startHeartbeats`). -/
def stepVoteReply (c : Cluster) (dst : String) (electionTerm : Nat)
    (resp : RequestVoteResponse) : Cluster :=
  match c.node? dst with
  | none => c
  | some st =>
    if resp.term > st.raft.currentTerm then
      c.setNode dst { st with raft := becomeFollower st.raft resp.term }
    else if resp.voteGranted ∧ st.raft.role = .candidate then
      let received := ((st.counters.find? (fun e => e.1 = electionTerm)).map Prod.snd).getD 0 + 1
      let counters1 :=
        st.counters.map (fun e => if e.1 = electionTerm then (electionTerm, received) else e)
      if received ≥ votesNeeded (c.peersOf dst).length then
        let raft1 := becomeLeader st.raft dst (c.peersOf dst)
        ((c.setNode dst { raft := raft1, counters := counters1 }).send
          ((c.peersOf dst).map (fun p => replicationMsg dst p raft1)))
      else
        c.setNode dst { st with counters := counters1 }
    else c

/-- Process one in-flight message (delivery): run the receiving handler or
response continuation. -/
def stepDeliverMsg (c : Cluster) (m : NetMsg) : Cluster :=
  match m with
  | .requestVote src dst p =>
    match c.node? dst with
    | none => c
    | some st =>
      let (raft1, resp) := handleRequestVote st.raft p
      ((c.setNode dst { st with raft := raft1 }).send
        [.voteReply dst src p.term resp])
  | .voteReply _ dst electionTerm resp => stepVoteReply c dst electionTerm resp
  | .appendEntries src dst p =>
    match c.node? dst with
    | none => c
    | some st =>
      let (raft1, resp) := handleAppendEntries st.raft p
      ((c.setNode dst { st with raft := raft1 }).send
        [.appendReply dst src (p.prevLogIndex + 1) resp])
  | .appendReply src dst sentNextIndex resp =>
    match c.node? dst with
    | none => c
    | some st =>
      if resp.term > st.raft.currentTerm then
        c.setNode dst { st with raft := becomeFollower st.raft resp.term }
      else if resp.success then
        c.setNode dst
          { st with raft :=
            { st.raft with
              nextIndex := mapSet st.raft.nextIndex src (resp.matchIndex + 1)
              matchIndex := mapSet st.raft.matchIndex src resp.matchIndex } }
      else
        c.setNode dst
          { st with raft :=
            { st.raft with
              nextIndex := mapSet st.raft.nextIndex src (max 1 (sentNextIndex - 1)) } }

/-- A transition of the cluster. -/
inductive ClusterAction where
  | timeout (n : String)
  | deliver (k : Nat)
  | dropMsg (k : Nat)
  | submit (n : String) (op : RoomOperation)
  | updateCommitAct (n : String)
  | heartbeat (n : String)
  deriving DecidableEq, Repr

/-- Execute one transition (not-enabled transitions leave the state
unchanged). -/
def stepAction (a : ClusterAction) (c : Cluster) : Cluster :=
  match a with
  | .timeout n => stepTimeout c n
  | .deliver k =>
    match c.network.get? k with
    | none => c
    | some m => stepDeliverMsg { c with network := c.network.eraseIdx k } m
  | .dropMsg k => { c with network := c.network.eraseIdx k }
  | .submit n op =>
    match c.node? n with
    | none => c
    | some st =>
      let (raft1, ok) := submitOperation st.raft op
      if ok then
        ((c.setNode n { st with raft := raft1 }).send
          ((c.peersOf n).map (fun p => replicationMsg n p raft1)))
      else c
  | .updateCommitAct n =>
    match c.node? n with
    | none => c
    | some st =>
      c.setNode n { st with raft := updateCommitIndex st.raft (c.peersOf n) }
  | .heartbeat n =>
    match c.node? n with
    | none => c
    | some st =>
      if st.raft.role = .leader then
        c.send ((c.peersOf n).map (fun p => replicationMsg n p st.raft))
      else c

/-- Reachability: reflexive-transitive closure of single transitions. -/
def ClusterStep (c c1 : Cluster) : Prop :=
  ∃ a : ClusterAction, c1 = stepAction a c

/-- Reachable from a given start state. -/
def ReachableFrom (c0 c : Cluster) : Prop :=
  Relation.ReflTransGen ClusterStep c0 c

/-- Run a scripted sequence of transitions. -/
def runScript (acts : List ClusterAction) (c : Cluster) : Cluster :=
  acts.foldl (fun c a => stepAction a c) c

/-- Every scripted run stays inside the transition relation. -/
theorem reachableFrom_runScript (acts : List ClusterAction) (c : Cluster) :
    ReachableFrom c (runScript acts c) := by
  induction acts generalizing c with
  | nil => exact Relation.ReflTransGen.refl
  | cons a rest ih =>
    exact Relation.ReflTransGen.head ⟨a, rfl⟩ (ih (stepAction a c))

/-- Fresh three-node cluster hosting one room: every node starts with
`createRaftRoomState` and the network is empty. -/
def initCluster : Cluster :=
  { nodes :=
      [("A", { raft := createRaftRoomState, counters := [] }),
       ("B", { raft := createRaftRoomState, counters := [] }),
       ("C", { raft := createRaftRoomState, counters := [] })]
    network := [] }

/-- Two distinct nodes are simultaneously in the Leader role with the same
`currentTerm`. -/
def twoLeadersSameTerm (c : Cluster) : Bool :=
  c.nodes.any (fun a =>
    c.nodes.any (fun b =>
      a.1 ≠ b.1 ∧ a.2.raft.role = .leader ∧ b.2.raft.role = .leader ∧
        a.2.raft.currentTerm = b.2.raft.currentTerm))

/-- The spec's per-node counter invariant
`lastApplied ≤ commitIndex ≤ len(log)`. -/
def raftCountersOk (s : RaftRoomState) : Bool :=
  s.lastApplied ≤ s.commitIndex ∧ s.commitIndex ≤ s.log.length

/-- The counter invariant on every node of the cluster. -/
def clusterCountersOk (c : Cluster) : Bool :=
  c.nodes.all (fun n => raftCountersOk n.2.raft)

/-! ## Backend node gateway (src/src/node/backend-node.ts)

The `BackendNode` class state relevant to message handling: the client
connection map, the `RoomStateManager` map (its `RoomState`), and the
`RaftConsensus` map (its `RaftRoomState`). WebSocket/HTTP plumbing is
dropped; messages the node sends are returned explicitly. -/

/-- Client connection entry (`ClientConnection`): `userId` is `""` until
`SET_USER_ID` arrives, `roomCode` is `null` until the client joins. -/
structure ClientConnection where
  userId : String
  roomCode : Option String
  deriving DecidableEq, Repr

/-- The state of one backend node. -/
structure BackendNodeState where
  clients : List (String × ClientConnection)
  rooms : List (String × RoomState)
  roomRaft : List (String × RaftRoomState)
  deriving DecidableEq, Repr

/-- Body of an inter-node RPC as dispatched by `handleRpcMessage`:
`message.type` is either a Raft message type or a room-operation type, and
forwarded client operations arrive as `{type: operation.type,
payload: operation.payload}`. -/
inductive RpcBody where
  | requestVote (roomCode : Option String) (p : RequestVotePayload)
  | appendEntries (roomCode : Option String) (p : AppendEntriesPayload)
  | roomOp (payload : RoomOperationPayload)
  deriving DecidableEq, Repr

/-- Value returned by `handleRpcMessage` to the RPC caller. -/
inductive RpcResult where
  | vote (r : RequestVoteResponse)
  | append (r : AppendEntriesResponse)
  | createOk
  | unknownType
  deriving DecidableEq, Repr

/-- Method `createRoom`: no-op when the code is already present, otherwise
instantiate a `RoomStateManager` (whose constructor runs `createRoomState`)
and a fresh `RaftConsensus`. -/
def createRoom (node : BackendNodeState) (roomCode creatorId : String)
    (now : Nat) : BackendNodeState :=
  if (node.rooms.find? (fun e => e.1 = roomCode)).isSome then node
  else
    { node with
      rooms := node.rooms ++ [(roomCode, createRoomState roomCode creatorId now)]
      roomRaft := node.roomRaft ++ [(roomCode, createRaftRoomState)] }

/-- Update one room's Raft state in the map. -/
def setRoomRaft (node : BackendNodeState) (roomCode : String)
    (raft : RaftRoomState) : BackendNodeState :=
  { node with
    roomRaft := node.roomRaft.map (fun e => if e.1 = roomCode then (roomCode, raft) else e) }

/-- Method `handleRpcMessage`: REQUEST_VOTE and APPEND_ENTRIES are routed to
the room's Raft instance (defaults when the room is unknown), ROOM_CREATE
creates the room, and every other message type — including every forwarded
client operation — falls through to `{error: "Unknown message type"}`. -/
def handleRpcMessage (node : BackendNodeState) (body : RpcBody) (now : Nat) :
    BackendNodeState × RpcResult :=
  match body with
  | .requestVote roomCode p =>
    match roomCode.bind (fun rc => (node.roomRaft.find? (fun e => e.1 = rc)).map Prod.snd) with
    | some raft =>
      let (raft1, resp) := handleRequestVote raft p
      (setRoomRaft node (roomCode.getD "") raft1, .vote resp)
    | none => (node, .vote { term := 0, voteGranted := false })
  | .appendEntries roomCode p =>
    match roomCode.bind (fun rc => (node.roomRaft.find? (fun e => e.1 = rc)).map Prod.snd) with
    | some raft =>
      let (raft1, resp) := handleAppendEntries raft p
      (setRoomRaft node (roomCode.getD "") raft1, .append resp)
    | none => (node, .append { term := 0, success := false, matchIndex := 0 })
  | .roomOp (.roomCreate roomCode userId) =>
    (createRoom node roomCode userId now, .createOk)
  | .roomOp _ => (node, .unknownType)

/-- Method `forwardToLeader`: the RPC body sent to the leader,
`{type: operation.type, payload: operation.payload}`. -/
def forwardToLeaderBody (operation : RoomOperation) : RpcBody :=
  .roomOp operation.payload

/-- Client → server message as dispatched by `handleClientMessage`
(`message.type` is a string; `unknownType` covers every unrecognised
value, which the source only logs). `createRoomMsg` carries the value
`generateRoomCode()` would produce, making the randomness explicit. -/
inductive ClientIncoming where
  | setUserId (userId : String)
  | createRoomMsg (generatedCode : String)
  | joinRoom (roomCode : String)
  | leaveRoom (roomCode : String)
  | playbackPlay (videoId : String) (positionSeconds : Int)
  | playbackPause (positionSeconds : Int)
  | playbackSeek (newPositionSeconds : Int)
  | playlistAdd (videoId : String) (newVideoPosition : Int)
  | playlistRemove (videoId : String) (removedVideoPosition : Int)
  | chatMessage (messageText : String)
  | unknownType (t : String)
  deriving DecidableEq, Repr

/-- Server → client message (payload snapshots elided where the claims do
not need them). -/
inductive ServerMsg where
  | userIdSet (userId : String)
  | errorMsg (message : String)
  | roomCreated (roomCode : String)
  | roomJoined (roomCode : String)
  | roomLeft (roomCode : String)
  deriving DecidableEq, Repr

/-- Result of handling one client message: the new node state, the messages
sent back to this client, and the RPCs sent to peers (forwards of
operations to the leader and ROOM_CREATE broadcasts). -/
structure ClientHandlerResult where
  node : BackendNodeState
  sent : List ServerMsg
  rpcSent : List (String × RpcBody)
  deriving DecidableEq, Repr

/-- Update one client's connection entry. -/
def setClient (node : BackendNodeState) (clientId : String)
    (conn : ClientConnection) : BackendNodeState :=
  { node with
    clients := node.clients.map (fun e => if e.1 = clientId then (clientId, conn) else e) }

/-- Method `handleRoomOperation` (playback, playlist, chat): validate only
that the client is bound to an existing room, complete the payload with
`roomCode`, `userId` and `timestamp = Date.now()`, then submit locally when
this node leads the room, else forward to the known leader, else reply
`ERROR`. `peerNodeIds` is the configured peer list (for replication sends,
which the cluster system models; they are not included in `rpcSent`). -/
def handleRoomOperation (node : BackendNodeState) (clientId : String)
    (incoming : ClientIncoming) (now : Nat) : ClientHandlerResult :=
  match (node.clients.find? (fun e => e.1 = clientId)).map Prod.snd with
  | none => { node := node, sent := [.errorMsg "Not in a room"], rpcSent := [] }
  | some client =>
    match client.roomCode with
    | none => { node := node, sent := [.errorMsg "Not in a room"], rpcSent := [] }
    | some roomCode =>
      if (node.rooms.find? (fun e => e.1 = roomCode)).isSome then
        let payload : RoomOperationPayload :=
          match incoming with
          | .playbackPlay videoId pos => .playbackPlay roomCode videoId pos
          | .playbackPause pos => .playbackPause roomCode pos
          | .playbackSeek pos => .playbackSeek roomCode pos
          | .playlistAdd videoId pos => .playlistAdd roomCode videoId client.userId pos
          | .playlistRemove videoId pos => .playlistRemove roomCode videoId pos
          | .chatMessage text => .chatMessage roomCode client.userId text now
          | _ => .chatMessage roomCode client.userId "" now
        let operation : RoomOperation := { payload := payload, timestamp := now }
        let raft := (node.roomRaft.find? (fun e => e.1 = roomCode)).map Prod.snd
        match raft with
        | some r =>
          if r.role = .leader then
            { node := setRoomRaft node roomCode (submitOperation r operation).1
              sent := []
              rpcSent := [] }
          else
            match r.leaderId with
            | some leaderId =>
              { node := node, sent := []
                rpcSent := [(leaderId, forwardToLeaderBody operation)] }
            | none =>
              { node := node
                sent := [.errorMsg "No leader available - please try again"]
                rpcSent := [] }
        | none =>
          { node := node
            sent := [.errorMsg "No leader available - please try again"]
            rpcSent := [] }
      else
        { node := node, sent := [.errorMsg "Room not found"], rpcSent := [] }

/-- Method `handleJoinRoom`. -/
def handleJoinRoom (node : BackendNodeState) (clientId roomCode : String)
    (now : Nat) : ClientHandlerResult :=
  match (node.clients.find? (fun e => e.1 = clientId)).map Prod.snd with
  | none => { node := node, sent := [.errorMsg "User ID not set"], rpcSent := [] }
  | some client =>
    if client.userId = "" then
      { node := node, sent := [.errorMsg "User ID not set"], rpcSent := [] }
    else if (node.rooms.find? (fun e => e.1 = roomCode)).isSome then
      let node1 := setClient node clientId { client with roomCode := some roomCode }
      let operation : RoomOperation :=
        { payload := .roomJoin roomCode client.userId, timestamp := now }
      let raft := (node1.roomRaft.find? (fun e => e.1 = roomCode)).map Prod.snd
      match raft with
      | some r =>
        if r.role = .leader then
          { node := setRoomRaft node1 roomCode (submitOperation r operation).1
            sent := [.roomJoined roomCode]
            rpcSent := [] }
        else
          match r.leaderId with
          | some leaderId =>
            { node := node1, sent := [.roomJoined roomCode]
              rpcSent := [(leaderId, forwardToLeaderBody operation)] }
          | none =>
            { node := node1, sent := [.roomJoined roomCode], rpcSent := [] }
      | none => { node := node1, sent := [.roomJoined roomCode], rpcSent := [] }
    else
      { node := node, sent := [.errorMsg "Room not found"], rpcSent := [] }

/-- Method `handleLeaveRoom`. -/
def handleLeaveRoom (node : BackendNodeState) (clientId roomCode : String)
    (now : Nat) : ClientHandlerResult :=
  match (node.clients.find? (fun e => e.1 = clientId)).map Prod.snd with
  | none => { node := node, sent := [], rpcSent := [] }
  | some client =>
    if (node.rooms.find? (fun e => e.1 = roomCode)).isSome then
      let operation : RoomOperation :=
        { payload := .roomLeave roomCode client.userId, timestamp := now }
      let raft := (node.roomRaft.find? (fun e => e.1 = roomCode)).map Prod.snd
      let afterSubmit : BackendNodeState × List (String × RpcBody) :=
        match raft with
        | some r =>
          if r.role = .leader then
            (setRoomRaft node roomCode (submitOperation r operation).1,
              ([] : List (String × RpcBody)))
          else
            match r.leaderId with
            | some leaderId => (node, [(leaderId, forwardToLeaderBody operation)])
            | none => (node, [])
        | none => (node, [])
      { node := setClient afterSubmit.1 clientId { client with roomCode := none }
        sent := [.roomLeft roomCode]
        rpcSent := afterSubmit.2 }
    else
      { node := node, sent := [], rpcSent := [] }

/-- Method `handleCreateRoom`: requires a set userId, creates the room
locally, binds the client, broadcasts ROOM_CREATE to every peer. -/
def handleCreateRoom (node : BackendNodeState) (clientId : String)
    (generatedCode : String) (peerNodeIds : List String) (now : Nat) :
    ClientHandlerResult :=
  match (node.clients.find? (fun e => e.1 = clientId)).map Prod.snd with
  | none => { node := node, sent := [.errorMsg "User ID not set"], rpcSent := [] }
  | some client =>
    if client.userId = "" then
      { node := node, sent := [.errorMsg "User ID not set"], rpcSent := [] }
    else
      let node1 := createRoom node generatedCode client.userId now
      let node2 := setClient node1 clientId { client with roomCode := some generatedCode }
      { node := node2
        sent := [.roomCreated generatedCode]
        rpcSent := peerNodeIds.map
          (fun p => (p, RpcBody.roomOp (.roomCreate generatedCode client.userId))) }

/-- Method `handleClientMessage`: the dispatch switch. The default branch
for an unknown message type only logs a warning: nothing is sent, no state
changes, the session stays open. -/
def handleClientMessage (node : BackendNodeState) (clientId : String)
    (msg : ClientIncoming) (peerNodeIds : List String) (now : Nat) :
    ClientHandlerResult :=
  match msg with
  | .setUserId userId =>
    match (node.clients.find? (fun e => e.1 = clientId)).map Prod.snd with
    | some client =>
      { node := setClient node clientId { client with userId := userId }
        sent := [.userIdSet userId]
        rpcSent := [] }
    | none => { node := node, sent := [], rpcSent := [] }
  | .createRoomMsg generatedCode => handleCreateRoom node clientId generatedCode peerNodeIds now
  | .joinRoom roomCode => handleJoinRoom node clientId roomCode now
  | .leaveRoom roomCode => handleLeaveRoom node clientId roomCode now
  | .playbackPlay _ _ => handleRoomOperation node clientId msg now
  | .playbackPause _ => handleRoomOperation node clientId msg now
  | .playbackSeek _ => handleRoomOperation node clientId msg now
  | .playlistAdd _ _ => handleRoomOperation node clientId msg now
  | .playlistRemove _ _ => handleRoomOperation node clientId msg now
  | .chatMessage _ => handleRoomOperation node clientId msg now
  | .unknownType _ => { node := node, sent := [], rpcSent := [] }

/-! ## Concrete fixtures used by the claim theorems -/

/-- Room freshly created by `u1` at local time 500. -/
def fixtureRoom : RoomState := createRoomState "ABC123" "u1" 500

/-- A PLAYBACK_PLAY operation as proposed by the leader at time 1000. -/
def fixturePlayOp : RoomOperation :=
  { payload := .playbackPlay "ABC123" "dQw4w9WgXcQ" 0, timestamp := 1000 }

/-- Room whose playlist holds two entries with the same `videoId`. -/
def fixtureDupRoom : RoomState :=
  { fixtureRoom with
    playlist :=
      [{ videoId := "x", addedBy := "unknown", addedAt := 1 },
       { videoId := "x", addedBy := "unknown", addedAt := 2 }] }

/-- Room whose playlist holds the two distinct videos `v1`, `v2`. -/
def fixtureTwoRoom : RoomState :=
  { fixtureRoom with
    playlist :=
      [{ videoId := "v1", addedBy := "unknown", addedAt := 1 },
       { videoId := "v2", addedBy := "unknown", addedAt := 2 }] }

/-! ## C1 — time fields and determinism of apply -/

/-- Claim C1: every time field written by `applyOperation` is said to derive
from the operation's submit timestamp, never from the applying node's local
clock, making two applications of the same (state, operation) pair
identical. The code refutes this: `applyPlaybackPlay` stamps
`lastUpdated = Date.now()`, so the same committed operation applied at local
times 1000 and 2000 produces two different room states (the operation's own
timestamp, 1000, is ignored). -/
theorem applyOperation_uses_local_clock :
    (applyOperation fixtureRoom fixturePlayOp 2000).playback.lastUpdated = 2000 ∧
    fixturePlayOp.timestamp = 1000 ∧
    applyOperation fixtureRoom fixturePlayOp 1000 ≠
      applyOperation fixtureRoom fixturePlayOp 2000 := by
  refine ⟨rfl, rfl, ?_⟩
  decide

/-! ## C6 — PLAYLIST_REMOVE -/

/-- Claim C6 counterexample: with duplicates of `videoId = "x"` at
positions 0 and 1 and `removedVideoPosition = 0` matching, the claim says
exactly the entry at position 0 is removed (one entry, leaving one); the
code's `filter` removes both. -/
theorem applyPlaylistRemove_removes_all_duplicates :
    fixtureDupRoom.playlist.length = 2 ∧
    (fixtureDupRoom.playlist.get? 0).any (fun v => v.videoId = "x") = true ∧
    (applyPlaylistRemove fixtureDupRoom "x").playlist = [] := by
  refine ⟨rfl, rfl, ?_⟩
  decide

/-- Claim C6 amended: PLAYLIST_REMOVE removes every entry whose `videoId`
matches — `removedVideoPosition` is ignored entirely — and is a no-op when
no entry matches. Stated as: (1) the result does not depend on the position
argument; (2) no matching entry survives; (3) no-op without a match; (4)
exactly the matching entries are removed (count arithmetic). -/
theorem applyPlaylistRemove_spec (s : RoomState) (rc vid : String)
    (p1 p2 : Int) (ts now1 now2 : Nat) :
    (applyOperation s { payload := .playlistRemove rc vid p1, timestamp := ts } now1 =
      applyOperation s { payload := .playlistRemove rc vid p2, timestamp := ts } now2) ∧
    (∀ v ∈ (applyPlaylistRemove s vid).playlist, v.videoId ≠ vid) ∧
    ((∀ v ∈ s.playlist, v.videoId ≠ vid) → applyPlaylistRemove s vid = s) ∧
    (applyPlaylistRemove s vid).playlist.length +
        (s.playlist.filter (fun v => v.videoId = vid)).length = s.playlist.length := by
  refine ⟨rfl, ?_, ?_, ?_⟩
  · intro v hv
    have := List.of_mem_filter hv
    simpa using this
  · intro h
    have hf : s.playlist.filter (fun v => decide (v.videoId ≠ vid)) = s.playlist :=
      List.filter_eq_self.mpr (fun a ha => by simp [h a ha])
    simp only [applyPlaylistRemove, hf]
  · simp only [applyPlaylistRemove]
    rw [← List.countP_eq_length_filter, ← List.countP_eq_length_filter]
    have h := List.length_eq_countP_add_countP (fun v => decide (v.videoId = vid)) s.playlist
    have hcong : s.playlist.countP (fun v => decide (v.videoId ≠ vid)) =
        s.playlist.countP (fun a => decide (¬ (decide (a.videoId = vid) = true))) := by
      apply List.countP_congr
      intro a _
      by_cases hx : a.videoId = vid <;> simp [hx]
    rw [hcong]
    omega

/-- Witness for the amended C6: removing `"x"` from the duplicate playlist
is position-independent, leaves no `"x"`, and removes exactly the two
matches. -/
theorem applyPlaylistRemove_spec_witness :
    ((∀ v ∈ fixtureDupRoom.playlist, v.videoId ≠ "q") →
      applyPlaylistRemove fixtureDupRoom "q" = fixtureDupRoom) ∧
    (applyPlaylistRemove fixtureDupRoom "x").playlist.length +
        (fixtureDupRoom.playlist.filter (fun v => v.videoId = "x")).length =
      fixtureDupRoom.playlist.length := by
  exact ⟨(applyPlaylistRemove_spec fixtureDupRoom "R" "q" 0 0 0 0 0).2.2.1,
    (applyPlaylistRemove_spec fixtureDupRoom "R" "x" 0 0 0 0 0).2.2.2⟩

/-! ## C7 — PLAYLIST_ADD position handling -/

/-- Claim C7: a requested position of -1 is said to append at the end. The
code's `splice(-1, 0, video)` instead inserts before the LAST entry
(JavaScript counts a negative start from the end): adding `v3` at position
-1 to `[v1, v2]` yields `[v1, v3, v2]`, not the append `[v1, v2, v3]`
documented by the clients (`newVideoPosition: position ?? -1 // -1 means
append to end`). -/
theorem applyPlaylistAdd_neg_one_inserts_before_last :
    ((applyPlaylistAdd fixtureTwoRoom "v3" (-1) 99).playlist.map PlaylistVideo.videoId) =
      ["v1", "v3", "v2"] ∧
    ((applyPlaylistAdd fixtureTwoRoom "v3" (-1) 99).playlist.map PlaylistVideo.videoId) ≠
      ["v1", "v2", "v3"] := by
  refine ⟨rfl, ?_⟩
  decide

/-! ## C10 — idempotence of ROOM_JOIN -/

/-- Claim C10: ROOM_JOIN is idempotent — applying the same user's join twice
in a row (at any local clocks and submit timestamps) equals applying it
once, because the second application finds the user already present and
leaves every field unchanged. -/
theorem applyOperation_roomJoin_idempotent (s : RoomState) (rc u : String)
    (ts1 ts2 n1 n2 : Nat) :
    applyOperation
        (applyOperation s { payload := .roomJoin rc u, timestamp := ts1 } n1)
        { payload := .roomJoin rc u, timestamp := ts2 } n2 =
      applyOperation s { payload := .roomJoin rc u, timestamp := ts1 } n1 := by
  simp only [applyOperation]
  unfold applyRoomJoin
  by_cases h : (s.participants.find? (fun p => p.userId = u)).isSome = true
  · rw [if_pos h, if_pos h]
  · rw [if_neg h]
    have hmem :
        ((s.participants ++
            [(⟨u, n1, false⟩ : Participant)]).find?
          (fun p => p.userId = u)).isSome = true := by
      rw [List.find?_isSome]
      refine ⟨(⟨u, n1, false⟩ : Participant), ?_, ?_⟩
      · exact List.mem_append_right _ (List.mem_cons_self _ _)
      · simp
    dsimp only
    rw [if_pos hmem]

/-! ## C2 — AppendEntries success path -/

/-- Raft state of a node that already holds one entry of term 1. -/
def fixtureOneEntryRaft : RaftRoomState :=
  { createRaftRoomState with
    currentTerm := 1
    log := [{ term := 1, index := 1, operation := fixturePlayOp }] }

/-- Heartbeat from the term-1 leader with `prevLogIndex = 0` and no
entries. -/
def fixtureHeartbeat : AppendEntriesPayload :=
  { term := 1
    leaderId := "B"
    prevLogIndex := 0
    prevLogTerm := 0
    entries := []
    leaderCommitIndex := 0 }

/-- Claim C2 counterexample: for an accepted AppendEntries the claim says
the receiver truncates its log to `prevLogIndex` and answers
`matchIndex = prevLogIndex + |entries|`. A receiver holding one entry that
gets an empty-entries request with `prevLogIndex = 0` keeps its log (length
1, not truncated to 0) and answers `matchIndex = 1`, while
`prevLogIndex + |entries| = 0`. -/
theorem handleAppendEntries_keeps_longer_log :
    (handleAppendEntries fixtureOneEntryRaft fixtureHeartbeat).2.success = true ∧
    (handleAppendEntries fixtureOneEntryRaft fixtureHeartbeat).1.log =
      fixtureOneEntryRaft.log ∧
    (handleAppendEntries fixtureOneEntryRaft fixtureHeartbeat).2.matchIndex = 1 ∧
    fixtureHeartbeat.prevLogIndex + fixtureHeartbeat.entries.length = 0 := by
  refine ⟨rfl, ?_, rfl, rfl⟩
  decide

/-- Entries carrying the consecutive indices `n+1, n+2, ...` — the shape of
every `entries` array a leader builds (`log.slice(nextIndex - 1)` of a log
whose entry `i` has `index = i`). -/
def indexedFrom : Nat → List LogEntry → Prop
  | _, [] => True
  | n, e :: es => e.index = n + 1 ∧ indexedFrom (n + 1) es

/-- When the incoming entries continue the local log's indexing, the
append loop of `handleAppendEntries` is plain concatenation. -/
theorem appendEntriesLoop_append (log es : List LogEntry)
    (h : indexedFrom log.length es) : appendEntriesLoop log es = log ++ es := by
  induction es generalizing log with
  | nil => simp [appendEntriesLoop]
  | cons e rest ih =>
    obtain ⟨h1, h2⟩ := h
    have hstep : appendEntriesLoop log (e :: rest) = appendEntriesLoop (log ++ [e]) rest := by
      unfold appendEntriesLoop
      rw [List.foldl_cons]
      congr 1
      rw [if_pos]
      omega
    have hrest : indexedFrom (log ++ [e]).length rest := by
      simpa using h2
    rw [hstep, ih (log ++ [e]) hrest]
    simp

/-- The preamble of `handleAppendEntries` never touches the log. -/
theorem aePreamble_log (s : RaftRoomState) (p : AppendEntriesPayload) :
    (aePreamble s p).log = s.log := by
  unfold aePreamble becomeFollower
  dsimp only
  split <;> split <;> rfl

/-- The `applyCommittedEntries` loop never touches the log. -/
theorem applyCommittedEntries_log (s : RaftRoomState) :
    (applyCommittedEntries s).log = s.log := by
  unfold applyCommittedEntries
  split <;> rfl

/-- The append phase merges via `appendEntriesLoop` and reports success with
the merged log's length. -/
theorem appendPhase_spec (s3 : RaftRoomState) (p : AppendEntriesPayload) :
    (appendPhase s3 p).1.log = appendEntriesLoop s3.log p.entries ∧
    (appendPhase s3 p).2.success = true ∧
    (appendPhase s3 p).2.matchIndex = (appendEntriesLoop s3.log p.entries).length := by
  unfold appendPhase
  dsimp only
  split
  · exact ⟨applyCommittedEntries_log _, rfl, by rw [applyCommittedEntries_log]⟩
  · exact ⟨rfl, rfl, rfl⟩

/-- Claim C2 amended: for a non-stale AppendEntries whose consistency check
passes, when the receiver's log has exactly `prevLogIndex` entries and the
request's entries continue the indexing, the receiver APPENDS the entries
(no truncation happens, and a log longer than `prevLogIndex + |entries|`
would be kept) and replies `success=true` with `matchIndex` equal to the
length of its log after the merge — which in this exact-length case equals
`prevLogIndex + |entries|`. -/
theorem handleAppendEntries_append_spec (s : RaftRoomState) (p : AppendEntriesPayload)
    (hterm : ¬ p.term < s.currentTerm)
    (hlen : s.log.length = p.prevLogIndex)
    (hcons : p.prevLogIndex > 0 →
      (s.log.get? (p.prevLogIndex - 1)).map LogEntry.term = some p.prevLogTerm)
    (hidx : indexedFrom s.log.length p.entries) :
    (handleAppendEntries s p).2.success = true ∧
    (handleAppendEntries s p).1.log = s.log ++ p.entries ∧
    (handleAppendEntries s p).2.matchIndex = p.prevLogIndex + p.entries.length := by
  unfold handleAppendEntries
  rw [if_neg hterm]
  dsimp only
  have hlog3 : (aePreamble s p).log = s.log := aePreamble_log s p
  have hlen3 : (aePreamble s p).log.length = p.prevLogIndex := by
    rw [hlog3]; exact hlen
  have happ : appendEntriesLoop (aePreamble s p).log p.entries =
      (aePreamble s p).log ++ p.entries := by
    refine appendEntriesLoop_append _ _ ?_
    rw [hlog3]; exact hidx
  have hspec := appendPhase_spec (aePreamble s p) p
  have hfinal :
      (appendPhase (aePreamble s p) p).2.success = true ∧
      (appendPhase (aePreamble s p) p).1.log = s.log ++ p.entries ∧
      (appendPhase (aePreamble s p) p).2.matchIndex =
        p.prevLogIndex + p.entries.length := by
    refine ⟨hspec.2.1, ?_, ?_⟩
    · rw [hspec.1, happ, hlog3]
    · rw [hspec.2.2, happ, List.length_append, hlen3]
  by_cases hp : p.prevLogIndex > 0
  · rw [if_pos hp]
    have hcons1 := hcons hp
    obtain ⟨e, hget, hterme⟩ :
        ∃ e, s.log.get? (p.prevLogIndex - 1) = some e ∧ e.term = p.prevLogTerm := by
      cases hg : s.log.get? (p.prevLogIndex - 1) with
      | none => rw [hg] at hcons1; simp at hcons1
      | some e =>
        refine ⟨e, rfl, ?_⟩
        rw [hg] at hcons1
        simpa using hcons1
    rw [if_neg (by omega : ¬ p.prevLogIndex > (aePreamble s p).log.length)]
    have hany : ((aePreamble s p).log.get? (p.prevLogIndex - 1)).any
        (fun e => e.term != p.prevLogTerm) = false := by
      rw [hlog3, hget]
      simp [hterme]
    rw [hany]
    rw [if_neg (by simp : ¬ false = true)]
    exact hfinal
  · rw [if_neg hp]
    exact hfinal

/-- Witness for the amended C2: a follower with an empty log accepting one
entry at index 1 ends with exactly that entry and `matchIndex = 1`. -/
theorem handleAppendEntries_append_spec_witness :
    (handleAppendEntries createRaftRoomState
        { term := 1, leaderId := "B", prevLogIndex := 0, prevLogTerm := 0
          entries := [{ term := 1, index := 1, operation := fixturePlayOp }]
          leaderCommitIndex := 0 }).2.success = true ∧
    (handleAppendEntries createRaftRoomState
        { term := 1, leaderId := "B", prevLogIndex := 0, prevLogTerm := 0
          entries := [{ term := 1, index := 1, operation := fixturePlayOp }]
          leaderCommitIndex := 0 }).1.log =
      createRaftRoomState.log ++ [{ term := 1, index := 1, operation := fixturePlayOp }] ∧
    (handleAppendEntries createRaftRoomState
        { term := 1, leaderId := "B", prevLogIndex := 0, prevLogTerm := 0
          entries := [{ term := 1, index := 1, operation := fixturePlayOp }]
          leaderCommitIndex := 0 }).2.matchIndex = 0 + 1 := by
  exact handleAppendEntries_append_spec createRaftRoomState _
    (by decide) (by decide) (by intro h; simp at h) (by constructor <;> trivial)

/-! ## C8 — RequestVote -/

/-- Last log term of a node as computed inline by `isLogUpToDate` and
`startElection` (`log.length > 0 ? log[len-1].term : 0`). -/
def lastLogTermOf (s : RaftRoomState) : Nat :=
  match s.log.getLast? with
  | some e => e.term
  | none => 0

/-- The claim's wording of "the candidate's log is at least as up-to-date":
last log term greater, or last log term equal and last log index at least
the receiver's. -/
def candidateLogAtLeastUpToDate (s : RaftRoomState) (lastLogIndex lastLogTerm : Nat) :
    Prop :=
  lastLogTerm > lastLogTermOf s ∨
    (lastLogTerm = lastLogTermOf s ∧ lastLogIndex ≥ s.log.length)

/-- The code's `isLogUpToDate` decides exactly the claim's up-to-date
relation. -/
theorem isLogUpToDate_iff (s : RaftRoomState) (lastLogIndex lastLogTerm : Nat) :
    isLogUpToDate s lastLogIndex lastLogTerm = true ↔
      candidateLogAtLeastUpToDate s lastLogIndex lastLogTerm := by
  unfold isLogUpToDate candidateLogAtLeastUpToDate lastLogTermOf
  dsimp only
  by_cases h : lastLogTerm = (match s.log.getLast? with | some e => e.term | none => 0)
  · rw [if_neg (by simpa using h)]
    simp [h]
  · rw [if_pos (by simpa using h)]
    simp only [decide_eq_true_eq]
    constructor
    · intro hgt
      exact Or.inl hgt
    · intro hor
      rcases hor with hgt | ⟨heq, _⟩
      · exact hgt
      · exact absurd heq h

/-- Claim C8: `handleRequestVote` (1) replies `voteGranted=false` and leaves
the state unchanged when the request's term is stale; (2) otherwise grants
the vote exactly when `votedFor` — after adopting a strictly higher term,
which clears it — is null or the candidate, and the candidate's log is at
least as up-to-date; (3) on grant it records `votedFor = candidateId`. -/
theorem handleRequestVote_spec (s : RaftRoomState) (p : RequestVotePayload) :
    (p.term < s.currentTerm →
      handleRequestVote s p = (s, { term := s.currentTerm, voteGranted := false })) ∧
    (¬ p.term < s.currentTerm →
      ((handleRequestVote s p).2.voteGranted = true ↔
        (((if p.term > s.currentTerm then none else s.votedFor) = none ∨
            (if p.term > s.currentTerm then none else s.votedFor) = some p.candidateId) ∧
          candidateLogAtLeastUpToDate s p.lastLogIndex p.lastLogTerm))) ∧
    ((handleRequestVote s p).2.voteGranted = true →
      (handleRequestVote s p).1.votedFor = some p.candidateId) := by
  unfold handleRequestVote
  by_cases hlt : p.term < s.currentTerm
  · rw [if_pos hlt]
    refine ⟨fun _ => rfl, fun h => absurd hlt h, ?_⟩
    intro h
    simp at h
  · rw [if_neg hlt]
    dsimp only
    have hvf : (if p.term > s.currentTerm then becomeFollower s p.term else s).votedFor =
        (if p.term > s.currentTerm then none else s.votedFor) := by
      split <;> rfl
    have hlog : (if p.term > s.currentTerm then becomeFollower s p.term else s).log = s.log := by
      split <;> rfl
    have hups : ∀ i t,
        isLogUpToDate (if p.term > s.currentTerm then becomeFollower s p.term else s) i t =
          isLogUpToDate s i t := by
      intro i t
      unfold isLogUpToDate
      rw [hlog]
    refine ⟨fun h => absurd h hlt, fun _ => ?_, ?_⟩
    · by_cases hcan :
        ((if p.term > s.currentTerm then becomeFollower s p.term else s).votedFor = none ∨
          (if p.term > s.currentTerm then becomeFollower s p.term else s).votedFor =
            some p.candidateId) ∧
          isLogUpToDate (if p.term > s.currentTerm then becomeFollower s p.term else s)
            p.lastLogIndex p.lastLogTerm = true
      · rw [if_pos hcan]
        simp only [true_iff]
        refine ⟨?_, ?_⟩
        · rw [← hvf]
          exact hcan.1
        · rw [← isLogUpToDate_iff, ← hups]
          exact hcan.2
      · rw [if_neg hcan]
        simp only [Bool.false_eq_true, false_iff]
        intro hcontra
        exact hcan ⟨by rw [hvf]; exact hcontra.1,
          by rw [hups, isLogUpToDate_iff]; exact hcontra.2⟩
    · by_cases hcan :
        ((if p.term > s.currentTerm then becomeFollower s p.term else s).votedFor = none ∨
          (if p.term > s.currentTerm then becomeFollower s p.term else s).votedFor =
            some p.candidateId) ∧
          isLogUpToDate (if p.term > s.currentTerm then becomeFollower s p.term else s)
            p.lastLogIndex p.lastLogTerm = true
      · rw [if_pos hcan]
        intro _
        rfl
      · rw [if_neg hcan]
        intro h
        simp at h

/-- Witness for C8: a fresh follower grants the vote to candidate `"B"`
whose term is 1 and log is empty, and records `votedFor = "B"`. -/
theorem handleRequestVote_spec_witness :
    (handleRequestVote createRaftRoomState
        { term := 1, candidateId := "B", lastLogIndex := 0, lastLogTerm := 0 }).2.voteGranted
        = true ∧
    (handleRequestVote createRaftRoomState
        { term := 1, candidateId := "B", lastLogIndex := 0, lastLogTerm := 0 }).1.votedFor
        = some "B" := by
  have h := handleRequestVote_spec createRaftRoomState
    { term := 1, candidateId := "B", lastLogIndex := 0, lastLogTerm := 0 }
  have hg := (h.2.1 (by decide)).mpr
    (by constructor
        · exact Or.inl (by decide)
        · exact Or.inr (by constructor <;> decide))
  exact ⟨hg, h.2.2 hg⟩

/-! ## C4 — election safety -/

/-- Operation proposed by node B in its first leadership. -/
def opW : RoomOperation := { payload := .chatMessage "R" "u" "w" 1, timestamp := 1 }

/-- Operation proposed by node A in term 2. -/
def opX : RoomOperation := { payload := .chatMessage "R" "u" "x" 2, timestamp := 2 }

/-- Operation proposed by node B after its stale-vote re-election. -/
def opZ : RoomOperation := { payload := .chatMessage "R" "u" "z" 3, timestamp := 3 }

/-- Run violating election safety. A starts an election in term 1; B grants
it but the reply is delayed. A times out into term 2. B also times out into
term 2, wins C's vote and becomes leader of term 2. B's RequestVote reaches
A (candidate of term 2), which rejects it. Then B's DELAYED term-1 grant
reaches A: the vote-counting continuation checks only
`voteGranted && role === CANDIDATE`, never that the response belongs to the
current term, so the term-1 election's counter reaches the majority and A
becomes leader — of term 2, which B already leads. -/
def electionSafetyScript : List ClusterAction :=
  [.timeout "A", .deliver 0, .timeout "A", .timeout "B",
   .deliver 5, .deliver 5, .deliver 4, .deliver 1]

/-- Claim C4: at most one node is said to lead any given term. The scripted
run above is a sequence of cluster transitions (elections, RPC deliveries,
message delays) after which nodes A and B are BOTH in the Leader role with
`currentTerm = 2`. -/
theorem raft_two_leaders_in_same_term_reachable :
    ReachableFrom initCluster (runScript electionSafetyScript initCluster) ∧
    twoLeadersSameTerm (runScript electionSafetyScript initCluster) = true := by
  refine ⟨reachableFrom_runScript _ _, ?_⟩
  decide

/-! ## C5 — lastApplied ≤ commitIndex ≤ len(log) -/

/-- Run violating the counter invariant. B leads term 1 and appends `opW`,
never replicated. A leads term 2, replicates and commits `opX` at index 1 on
itself and on C (C: `commitIndex = lastApplied = 1`). B times out into
term 3, is rejected by both peers (its log lost the term-2 entry), but a
stale term-1 grant from A re-elects it (the C4 bug). B, leader of term 3
with log `[opW(term 1)]`, appends `opZ` and sends C an AppendEntries with
`prevLogIndex = 1, prevLogTerm = 1`; C's entry at index 1 has term 2, so the
conflict branch truncates C's log to length 0 while `commitIndex` stays 1 —
the code never lowers `commitIndex` when it truncates. -/
def commitInvariantScript : List ClusterAction :=
  [.timeout "B", .deliver 1, .deliver 0, .deliver 0,
   .dropMsg 1, .dropMsg 1,
   .submit "B" opW, .dropMsg 1, .dropMsg 1, .updateCommitAct "B",
   .timeout "A", .deliver 1, .deliver 1, .deliver 2,
   .dropMsg 2, .dropMsg 2,
   .submit "A" opX, .dropMsg 2, .deliver 2, .deliver 2,
   .updateCommitAct "A",
   .heartbeat "A", .dropMsg 2, .deliver 2, .dropMsg 2,
   .timeout "B", .deliver 2, .deliver 2, .deliver 0,
   .dropMsg 3, .dropMsg 3,
   .submit "B" opZ, .dropMsg 3, .deliver 3]

/-- Claim C5: `lastApplied ≤ commitIndex ≤ len(log)` is said to hold on
every node after every transition. The scripted run above is a sequence of
cluster transitions after which node C has `commitIndex = 1` and
`lastApplied = 1` but an empty log, refuting `commitIndex ≤ len(log)` (the
already-applied committed entry is gone as well). -/
theorem raft_commitIndex_exceeds_log_reachable :
    ReachableFrom initCluster (runScript commitInvariantScript initCluster) ∧
    clusterCountersOk (runScript commitInvariantScript initCluster) = false ∧
    ((runScript commitInvariantScript initCluster).node? "C").map
        (fun st => (st.raft.commitIndex, st.raft.lastApplied, st.raft.log.length)) =
      some (1, 1, 0) := by
  refine ⟨reachableFrom_runScript _ _, ?_, ?_⟩
  · decide
  · decide

/-! ## C3 — forwarding client operations to the leader -/

/-- Raft state of the room's leader node. -/
def fixtureLeaderRaft : RaftRoomState :=
  { createRaftRoomState with
    currentTerm := 1
    role := .leader
    leaderId := some "A"
    nextIndex := [("B", 1), ("C", 1)]
    matchIndex := [("B", 0), ("C", 0)] }

/-- Leader node A hosting room ABC123 with one connected client. -/
def fixtureLeaderNode : BackendNodeState :=
  { clients := [("c1", { userId := "u2", roomCode := some "ABC123" })]
    rooms := [("ABC123", fixtureRoom)]
    roomRaft := [("ABC123", fixtureLeaderRaft)] }

/-- ROOM_JOIN operation a follower's gateway builds for forwarding. -/
def fixtureJoinOp : RoomOperation :=
  { payload := .roomJoin "ABC123" "u2", timestamp := 1000 }

/-- Claim C3: a follower's gateway does forward the operation to the leader
(`forwardToLeader` sends `{type: operation.type, payload}`), but the
leader's `handleRpcMessage` has no case for forwarded room operations: on
the leader the forwarded ROOM_JOIN falls through to
`{error: "Unknown message type"}`, the node state — in particular the
room's Raft log — is completely unchanged, and nothing is ever proposed. -/
theorem forwarded_operation_dropped_by_leader :
    handleRpcMessage fixtureLeaderNode (forwardToLeaderBody fixtureJoinOp) 1000 =
      (fixtureLeaderNode, .unknownType) ∧
    ((handleRpcMessage fixtureLeaderNode (forwardToLeaderBody fixtureJoinOp) 1000).1.roomRaft.find?
        (fun e => e.1 = "ABC123")).map (fun e => e.2.log) = some [] := by
  exact ⟨rfl, rfl⟩

/-! ## C9 — client message validation -/

/-- Chat text of 501 characters. -/
def text501 : String := String.mk (List.replicate 501 'a')

/-- Chat text of exactly 500 characters. -/
def text500 : String := String.mk (List.replicate 500 'a')

/-- Claim C9 counterexample: the claim says a 501-character chat is rejected
with an `ERROR` while no operation is submitted. The gateway performs no
length validation at all: on the leader the 501-character chat is submitted
into the room's Raft log and no message — in particular no `ERROR` — is
sent back. -/
theorem oversize_chat_submitted_without_error :
    text501.length = 501 ∧
    (handleClientMessage fixtureLeaderNode "c1" (.chatMessage text501) ["B", "C"] 1000).sent
      = [] ∧
    ((handleClientMessage fixtureLeaderNode "c1" (.chatMessage text501)
        ["B", "C"] 1000).node.roomRaft.find? (fun e => e.1 = "ABC123")).map
        (fun e => e.2.log.map (fun entry => entry.operation)) =
      some [{ payload := .chatMessage "ABC123" "u2" text501 1000, timestamp := 1000 }] := by
  refine ⟨rfl, rfl, rfl⟩

/-- Claim C9 amended: the gateway validates nothing about a chat message's
length — on a leader node any chat text, 500 or 501 characters alike, is
accepted and submitted into the room's Raft log with no reply to the
client; and a message of unknown type is ignored with only a log warning:
no `ERROR` is sent, no operation is submitted, the node state (including
the client session) is unchanged, so the session stays open. -/
theorem gateway_no_validation_spec (node : BackendNodeState) (clientId : String)
    (client : ClientConnection) (roomCode : String) (raft : RaftRoomState)
    (text : String) (peers : List String) (now : Nat)
    (hc : (node.clients.find? (fun e => e.1 = clientId)).map Prod.snd = some client)
    (hrc : client.roomCode = some roomCode)
    (hroom : (node.rooms.find? (fun e => e.1 = roomCode)).isSome = true)
    (hraft : (node.roomRaft.find? (fun e => e.1 = roomCode)).map Prod.snd = some raft)
    (hlead : raft.role = NodeRole.leader) :
    handleClientMessage node clientId (.chatMessage text) peers now =
      { node := setRoomRaft node roomCode
          (submitOperation raft
            { payload := .chatMessage roomCode client.userId text now
              timestamp := now }).1
        sent := []
        rpcSent := [] } ∧
    (∀ t, handleClientMessage node clientId (.unknownType t) peers now =
      { node := node, sent := [], rpcSent := [] }) := by
  refine ⟨?_, fun t => rfl⟩
  unfold handleClientMessage handleRoomOperation
  rw [hc]
  dsimp only
  rw [hrc]
  dsimp only
  rw [if_pos hroom, hraft]
  dsimp only
  rw [if_pos hlead]

/-- Witness for the amended C9: on the concrete leader node a 500-character
chat is submitted with no reply, and an unknown `"BOGUS"` message changes
nothing. -/
theorem gateway_no_validation_spec_witness :
    text500.length = 500 ∧
    handleClientMessage fixtureLeaderNode "c1" (.chatMessage text500) ["B", "C"] 1000 =
      { node := setRoomRaft fixtureLeaderNode "ABC123"
          (submitOperation fixtureLeaderRaft
            { payload := .chatMessage "ABC123" "u2" text500 1000
              timestamp := 1000 }).1
        sent := []
        rpcSent := [] } ∧
    handleClientMessage fixtureLeaderNode "c1" (.unknownType "BOGUS") ["B", "C"] 1000 =
      { node := fixtureLeaderNode, sent := [], rpcSent := [] } := by
  have h := gateway_no_validation_spec fixtureLeaderNode "c1"
    { userId := "u2", roomCode := some "ABC123" } "ABC123" fixtureLeaderRaft
    text500 ["B", "C"] 1000 rfl rfl rfl rfl rfl
  exact ⟨rfl, h.1, h.2 "BOGUS"⟩

end WatchTogether
